import Mathlib

/-!
Verification of the earthquake / typhoon / flood monitoring repository.

The definitions below are shallow embeddings of the TypeScript source:
JavaScript numbers are modelled as real numbers (`ℝ`) where trigonometry is
involved and as rationals (`ℚ`) where only exact threshold comparisons occur,
strings as `String`, nullable values as `Option`, and the Convex database as
explicit record stores passed through the mutation handlers.
-/

namespace Geo

/-- Model of JavaScript `Math.atan2(y, x)`. -/
noncomputable def atan2 (y x : ℝ) : ℝ :=
  if 0 < x then Real.arctan (y / x)
  else if x < 0 ∧ 0 ≤ y then Real.arctan (y / x) + Real.pi
  else if x < 0 ∧ y < 0 then Real.arctan (y / x) - Real.pi
  else if x = 0 ∧ 0 < y then Real.pi / 2
  else if x = 0 ∧ y < 0 then -(Real.pi / 2)
  else 0

/-- `calculateDistance` (Haversine formula, Earth radius 6371 km), as written
both in `src/convex/schema.ts` and in the typhoon location utility. -/
noncomputable def calculateDistance (lat1 lon1 lat2 lon2 : ℝ) : ℝ :=
  let R : ℝ := 6371
  let dLat : ℝ := (lat2 - lat1) * Real.pi / 180
  let dLon : ℝ := (lon2 - lon1) * Real.pi / 180
  let a : ℝ :=
    Real.sin (dLat / 2) * Real.sin (dLat / 2) +
      Real.cos (lat1 * Real.pi / 180) * Real.cos (lat2 * Real.pi / 180) *
        Real.sin (dLon / 2) * Real.sin (dLon / 2)
  let c : ℝ := 2 * atan2 (Real.sqrt a) (Real.sqrt (1 - a))
  R * c

lemma calculateDistance_core_congr (A B : ℝ) (h : A = B) :
    (6371 : ℝ) * (2 * atan2 (Real.sqrt A) (Real.sqrt (1 - A))) =
      6371 * (2 * atan2 (Real.sqrt B) (Real.sqrt (1 - B))) := by
  rw [h]

lemma sin_half_angle_swap (x y : ℝ) :
    Real.sin ((x - y) * Real.pi / 180 / 2) = -Real.sin ((y - x) * Real.pi / 180 / 2) := by
  have h : (x - y) * Real.pi / 180 / 2 = -((y - x) * Real.pi / 180 / 2) := by ring
  rw [h, Real.sin_neg]

end Geo

namespace Signal

/-- Typhoon categories, from the `Typhoon` interface in
`src/app/actions/typhoon.ts`. -/
inductive Category
  | TD | TS | STS | TY | STY | SuperTY
deriving DecidableEq, Repr

/-- `calculateSignalNumber` from the typhoon location utility: Public Storm
Warning Signal (1-5) from category and distance in km.  The source's else-if
chain over category literals is rendered as a match on the category. -/
noncomputable def calculateSignalNumber (category : Category) (distance : ℝ) : ℕ :=
  match category with
  | Category.SuperTY =>
    if distance ≤ 50 then 5
    else if distance ≤ 100 then 4
    else if distance ≤ 200 then 3
    else if distance ≤ 400 then 2
    else if distance ≤ 1000 then 1
    else 0
  | Category.STY =>
    if distance ≤ 50 then 4
    else if distance ≤ 100 then 3
    else if distance ≤ 200 then 2
    else if distance ≤ 500 then 1
    else 0
  | Category.TY =>
    if distance ≤ 50 then 3
    else if distance ≤ 100 then 2
    else if distance ≤ 300 then 1
    else 0
  | Category.STS =>
    if distance ≤ 50 then 2
    else if distance ≤ 150 then 1
    else 0
  | Category.TS =>
    if distance ≤ 50 then 1
    else 0
  | Category.TD =>
    if distance ≤ 50 then 1
    else 0

/-- Strength order on categories: TD < TS < STS < TY < STY < SuperTY. -/
def catRank : Category → ℕ
  | Category.TD => 0
  | Category.TS => 1
  | Category.STS => 2
  | Category.TY => 3
  | Category.STY => 4
  | Category.SuperTY => 5

end Signal

/-- C9: the great-circle distance function (Earth radius 6371 km) is symmetric
and zero on identical points. -/
theorem calculateDistance_symm_and_zero :
    (∀ lat1 lon1 lat2 lon2 : ℝ,
      Geo.calculateDistance lat1 lon1 lat2 lon2 =
        Geo.calculateDistance lat2 lon2 lat1 lon1) ∧
    (∀ lat lon : ℝ, Geo.calculateDistance lat lon lat lon = 0) := by
  constructor
  · intro lat1 lon1 lat2 lon2
    simp only [Geo.calculateDistance]
    apply Geo.calculateDistance_core_congr
    rw [Geo.sin_half_angle_swap lat1 lat2, Geo.sin_half_angle_swap lon1 lon2]
    ring
  · intro lat lon
    simp only [Geo.calculateDistance, sub_self, zero_mul, zero_div, Real.sin_zero,
      mul_zero, zero_add, add_zero, Real.sqrt_zero, sub_zero, Real.sqrt_one]
    rw [Geo.atan2, if_pos (by norm_num : (0:ℝ) < 1)]
    simp [Real.arctan_zero]

/-- C6: the storm signal function yields values in 0..5 for every category and
distance, and for SuperTY follows the breakpoints 50/100/200/400/1000 km with
signals 5/4/3/2/1 and 0 beyond. -/
theorem calculateSignalNumber_range_and_superTY :
    (∀ (c : Signal.Category) (d : ℝ), Signal.calculateSignalNumber c d ≤ 5) ∧
    (∀ d : ℝ,
      (d ≤ 50 → Signal.calculateSignalNumber Signal.Category.SuperTY d = 5) ∧
      (50 < d → d ≤ 100 → Signal.calculateSignalNumber Signal.Category.SuperTY d = 4) ∧
      (100 < d → d ≤ 200 → Signal.calculateSignalNumber Signal.Category.SuperTY d = 3) ∧
      (200 < d → d ≤ 400 → Signal.calculateSignalNumber Signal.Category.SuperTY d = 2) ∧
      (400 < d → d ≤ 1000 → Signal.calculateSignalNumber Signal.Category.SuperTY d = 1) ∧
      (1000 < d → Signal.calculateSignalNumber Signal.Category.SuperTY d = 0)) := by
  constructor
  · intro c d
    cases c <;> simp only [Signal.calculateSignalNumber] <;>
      split_ifs <;> norm_num
  · intro d
    refine ⟨?_, ?_, ?_, ?_, ?_, ?_⟩ <;>
      (intros ; simp only [Signal.calculateSignalNumber] ; split_ifs <;>
        norm_num <;> linarith)

/-- Witness for C6 at concrete distances in each SuperTY band. -/
theorem calculateSignalNumber_range_and_superTY_witness :
    Signal.calculateSignalNumber Signal.Category.SuperTY 30 = 5 ∧
    Signal.calculateSignalNumber Signal.Category.SuperTY 80 = 4 ∧
    Signal.calculateSignalNumber Signal.Category.SuperTY 150 = 3 ∧
    Signal.calculateSignalNumber Signal.Category.SuperTY 300 = 2 ∧
    Signal.calculateSignalNumber Signal.Category.SuperTY 700 = 1 ∧
    Signal.calculateSignalNumber Signal.Category.SuperTY 1500 = 0 :=
  ⟨(calculateSignalNumber_range_and_superTY.2 30).1 (by norm_num),
   (calculateSignalNumber_range_and_superTY.2 80).2.1 (by norm_num) (by norm_num),
   (calculateSignalNumber_range_and_superTY.2 150).2.2.1 (by norm_num) (by norm_num),
   (calculateSignalNumber_range_and_superTY.2 300).2.2.2.1 (by norm_num) (by norm_num),
   (calculateSignalNumber_range_and_superTY.2 700).2.2.2.2.1 (by norm_num) (by norm_num),
   (calculateSignalNumber_range_and_superTY.2 1500).2.2.2.2.2 (by norm_num)⟩

set_option maxHeartbeats 1000000 in
/-- C7: the storm signal function is antitone in distance for a fixed category
and monotone in category strength for a fixed distance. -/
theorem calculateSignalNumber_monotone :
    (∀ (c : Signal.Category) (d1 d2 : ℝ), d1 ≤ d2 →
      Signal.calculateSignalNumber c d2 ≤ Signal.calculateSignalNumber c d1) ∧
    (∀ (c1 c2 : Signal.Category) (d : ℝ), Signal.catRank c1 ≤ Signal.catRank c2 →
      Signal.calculateSignalNumber c1 d ≤ Signal.calculateSignalNumber c2 d) := by
  constructor
  · intro c d1 d2 h
    cases c <;> simp only [Signal.calculateSignalNumber] <;>
      split_ifs <;> norm_num <;> linarith
  · intro c1 c2 d h
    cases c1 <;> cases c2 <;>
      first
        | (refine absurd h ?_ ; decide)
        | (clear h ; simp only [Signal.calculateSignalNumber] ;
           split_ifs <;> norm_num <;> linarith)

/-- Witness for C7 at concrete categories and distances. -/
theorem calculateSignalNumber_monotone_witness :
    Signal.calculateSignalNumber Signal.Category.TY 250 ≤
      Signal.calculateSignalNumber Signal.Category.TY 60 ∧
    Signal.calculateSignalNumber Signal.Category.TS 75 ≤
      Signal.calculateSignalNumber Signal.Category.STY 75 :=
  ⟨calculateSignalNumber_monotone.1 Signal.Category.TY 60 250 (by norm_num),
   calculateSignalNumber_monotone.2 Signal.Category.TS Signal.Category.STY 75
     (by norm_num [Signal.catRank])⟩

namespace Flood

/-- Flood severity levels, from the `Flood` interface in
`src/app/actions/flood.ts`. -/
inductive Severity
  | low | moderate | high | extreme
deriving DecidableEq, Repr

/-- Water level status, from the `Flood` interface. -/
inductive WaterStatus
  | normal | monitoring | alert | alarm
deriving DecidableEq, Repr

/-- The severity / status classification step of `fetchOpenMeteoFloodData`:
given a basin's observed discharge and mean discharge (both truthy, i.e.
nonzero), compute the discharge ratio and classify; a basin with ratio
at most 1.2 is not emitted as a flood record (`none`). -/
def classifyDischarge (discharge meanDischarge : ℚ) : Option (Severity × WaterStatus) :=
  if discharge ≠ 0 ∧ meanDischarge ≠ 0 then
    let ratio := discharge / meanDischarge
    let sevStat : Severity × WaterStatus :=
      if ratio > 3.0 then (Severity.extreme, WaterStatus.alarm)
      else if ratio > 2.0 then (Severity.high, WaterStatus.alarm)
      else if ratio > 1.5 then (Severity.moderate, WaterStatus.alert)
      else if ratio > 1.2 then (Severity.low, WaterStatus.monitoring)
      else (Severity.low, WaterStatus.normal)
    if ratio > 1.2 then some sevStat else none
  else none

end Flood

/-- C8: flood severity is classified from the discharge ratio with strict
thresholds 3.0 / 2.0 / 1.5 / 1.2; a ratio of exactly 3.0 yields high, and a
basin whose ratio is at most 1.2 is never emitted as a flood record. -/
theorem classifyDischarge_thresholds (discharge meanDischarge : ℚ)
    (hd : discharge ≠ 0) (hm : meanDischarge ≠ 0) :
    (3.0 < discharge / meanDischarge →
      Flood.classifyDischarge discharge meanDischarge =
        some (Flood.Severity.extreme, Flood.WaterStatus.alarm)) ∧
    (2.0 < discharge / meanDischarge → discharge / meanDischarge ≤ 3.0 →
      Flood.classifyDischarge discharge meanDischarge =
        some (Flood.Severity.high, Flood.WaterStatus.alarm)) ∧
    (1.5 < discharge / meanDischarge → discharge / meanDischarge ≤ 2.0 →
      Flood.classifyDischarge discharge meanDischarge =
        some (Flood.Severity.moderate, Flood.WaterStatus.alert)) ∧
    (1.2 < discharge / meanDischarge → discharge / meanDischarge ≤ 1.5 →
      Flood.classifyDischarge discharge meanDischarge =
        some (Flood.Severity.low, Flood.WaterStatus.monitoring)) ∧
    (discharge / meanDischarge ≤ 1.2 →
      Flood.classifyDischarge discharge meanDischarge = none) := by
  refine ⟨?_, ?_, ?_, ?_, ?_⟩ <;>
    (intros ; simp only [Flood.classifyDischarge] ; split_ifs <;>
      first | rfl | tauto | (exfalso ; linarith))

/-- Witness for C8 at concrete discharge ratios, including the boundary cases
ratio = 3.0 (high, not extreme) and ratio = 1.2 (not a flood record). -/
theorem classifyDischarge_thresholds_witness :
    Flood.classifyDischarge 3.1 1 = some (Flood.Severity.extreme, Flood.WaterStatus.alarm) ∧
    Flood.classifyDischarge 3.0 1 = some (Flood.Severity.high, Flood.WaterStatus.alarm) ∧
    Flood.classifyDischarge 1.6 1 = some (Flood.Severity.moderate, Flood.WaterStatus.alert) ∧
    Flood.classifyDischarge 1.3 1 = some (Flood.Severity.low, Flood.WaterStatus.monitoring) ∧
    Flood.classifyDischarge 1.2 1 = none :=
  ⟨(classifyDischarge_thresholds 3.1 1 (by norm_num) (by norm_num)).1 (by norm_num),
   (classifyDischarge_thresholds 3.0 1 (by norm_num) (by norm_num)).2.1
     (by norm_num) (by norm_num),
   (classifyDischarge_thresholds 1.6 1 (by norm_num) (by norm_num)).2.2.1
     (by norm_num) (by norm_num),
   (classifyDischarge_thresholds 1.3 1 (by norm_num) (by norm_num)).2.2.2.1
     (by norm_num) (by norm_num),
   (classifyDischarge_thresholds 1.2 1 (by norm_num) (by norm_num)).2.2.2.2
     (by norm_num)⟩

namespace Cache

/-- Entries of the local storage cache (`CacheEntry<T>` in the storage cache
utility). Timestamps and ttl are in milliseconds. -/
structure CacheEntry (α : Type) where
  data : α
  timestamp : ℤ
  ttl : ℤ
deriving DecidableEq, Repr

/-- The cache portion of `localStorage`, keyed by cache key. -/
def Store (α : Type) : Type := List (String × CacheEntry α)

instance (α : Type) [DecidableEq α] : DecidableEq (Store α) :=
  inferInstanceAs (DecidableEq (List (String × CacheEntry α)))

/-- `localStorage.getItem` restricted to cache entries. -/
def lookupStore {α : Type} (s : Store α) (key : String) : Option (CacheEntry α) :=
  (List.find? (fun p => p.1 == key) s).map (fun p => p.2)

/-- `localStorage.removeItem`. -/
def removeItem {α : Type} (s : Store α) (key : String) : Store α :=
  List.filter (fun p => p.1 != key) s

/-- `getCached`: returns the cached value, or `none`; an entry whose ttl has
elapsed is removed from storage and `none` is returned. -/
def getCached {α : Type} (s : Store α) (now : ℤ) (key : String) :
    Option α × Store α :=
  match lookupStore s key with
  | none => (none, s)
  | some entry =>
    if now - entry.timestamp > entry.ttl then (none, removeItem s key)
    else (some entry.data, s)

/-- `setCache`: stores an entry stamped with the current time. -/
def setCache {α : Type} (s : Store α) (now : ℤ) (key : String) (data : α)
    (ttl : ℤ) : Store α :=
  (key, ⟨data, now, ttl⟩) :: removeItem s key

/-- `fetchWithCache`: tries the live fetch (modelled by its result); on success
caches and returns the fresh data, on failure falls back to `getCached` when
enabled and rethrows the original error when no cached value is available. -/
def fetchWithCache {α ε : Type} (s : Store α) (now : ℤ) (key : String)
    (fetchResult : Except ε α) (ttl : ℤ) (fallbackToCache : Bool) :
    Except ε α × Store α :=
  match fetchResult with
  | Except.ok data => (Except.ok data, setCache s now key data ttl)
  | Except.error err =>
    if fallbackToCache then
      match getCached s now key with
      | (some cached, s2) => (Except.ok cached, s2)
      | (none, s2) => (Except.error err, s2)
    else (Except.error err, s)

end Cache

/-- Counterexample to C4 as stated: with a single cache entry whose ttl has
elapsed (written at time 0 with ttl 10, read at time 100), `getCached` deletes
the entry and returns `none`, and `fetchWithCache` with a failing live fetch
rethrows the error instead of returning the stale value. -/
theorem fetchWithCache_stale_cex :
    Cache.getCached [("quakes", (⟨"v0", 0, 10⟩ : Cache.CacheEntry String))] 100 "quakes"
        = (none, ([] : Cache.Store String)) ∧
    Cache.fetchWithCache [("quakes", (⟨"v0", 0, 10⟩ : Cache.CacheEntry String))] 100 "quakes"
        (Except.error "network down") 10 true
        = (Except.error "network down", ([] : Cache.Store String)) := by
  constructor <;> rfl

/-- C4 amended: an entry whose ttl has elapsed is evicted on read and its value
is not returned; on live-fetch failure `fetchWithCache` returns the cached
value exactly when the entry is still within its ttl, and otherwise evicts it
and rethrows the original error. -/
theorem fetchWithCache_fallback {α ε : Type} (s : Cache.Store α) (now : ℤ)
    (key : String) (entry : Cache.CacheEntry α) (err : ε) (ttl : ℤ)
    (hfound : Cache.lookupStore s key = some entry) :
    (now - entry.timestamp > entry.ttl →
      Cache.getCached s now key = (none, Cache.removeItem s key) ∧
      Cache.fetchWithCache s now key (Except.error err) ttl true =
        (Except.error err, Cache.removeItem s key)) ∧
    (now - entry.timestamp ≤ entry.ttl →
      Cache.getCached s now key = (some entry.data, s) ∧
      Cache.fetchWithCache s now key (Except.error err) ttl true =
        (Except.ok entry.data, s)) := by
  constructor
  · intro h
    have hg : Cache.getCached s now key = (none, Cache.removeItem s key) := by
      simp only [Cache.getCached, hfound, if_pos h]
    exact ⟨hg, by simp only [Cache.fetchWithCache, hg, if_true]⟩
  · intro h
    have hg : Cache.getCached s now key = (some entry.data, s) := by
      simp only [Cache.getCached, hfound, if_neg (not_lt.mpr h)]
    exact ⟨hg, by simp only [Cache.fetchWithCache, hg, if_true]⟩

/-- Witness for the amended C4 at a concrete expired entry and a concrete
fresh entry. -/
theorem fetchWithCache_fallback_witness :
    (Cache.getCached [("quakes", (⟨"v0", 0, 10⟩ : Cache.CacheEntry String))] 100 "quakes"
        = (none, Cache.removeItem [("quakes", (⟨"v0", 0, 10⟩ : Cache.CacheEntry String))] "quakes") ∧
      Cache.fetchWithCache [("quakes", (⟨"v0", 0, 10⟩ : Cache.CacheEntry String))] 100 "quakes"
        (Except.error "network down") 10 true
        = (Except.error "network down",
            Cache.removeItem [("quakes", (⟨"v0", 0, 10⟩ : Cache.CacheEntry String))] "quakes")) ∧
    (Cache.getCached [("w", (⟨"fresh", 90, 50⟩ : Cache.CacheEntry String))] 100 "w"
        = (some "fresh", [("w", (⟨"fresh", 90, 50⟩ : Cache.CacheEntry String))]) ∧
      Cache.fetchWithCache [("w", (⟨"fresh", 90, 50⟩ : Cache.CacheEntry String))] 100 "w"
        (Except.error "network down") 50 true
        = (Except.ok "fresh", [("w", (⟨"fresh", 90, 50⟩ : Cache.CacheEntry String))])) :=
  ⟨(fetchWithCache_fallback [("quakes", (⟨"v0", 0, 10⟩ : Cache.CacheEntry String))]
      100 "quakes" ⟨"v0", 0, 10⟩ "network down" 10 rfl).1 (by decide),
   (fetchWithCache_fallback [("w", (⟨"fresh", 90, 50⟩ : Cache.CacheEntry String))]
      100 "w" ⟨"fresh", 90, 50⟩ "network down" 50 rfl).2 (by decide)⟩

namespace Ids

/-- Raw scraped PHIVOLCS earthquake row (the `PHIVOLCSEarthquake` interface):
all fields are the scraped cell texts. -/
structure PHIVOLCSEarthquake where
  dateTime : String
  detailLink : Option String
  latitude : String
  longitude : String
  depth : String
  magnitude : String
  location : String
deriving DecidableEq, Repr

/-- One character of the JS `replace(/[^a-zA-Z0-9-]/g, "-")` sanitisation. -/
def sanitizeChar (c : Char) : Char :=
  if c.isAlphanum || c = '-' then c else '-'

/-- Character-wise model of JS `toLowerCase()`. -/
def toLowerString (s : String) : String :=
  String.mk (s.data.map Char.toLower)

/-- `generateId`: derive the earthquake id from dateTime, latitude, longitude
and magnitude, replacing every character outside [a-zA-Z0-9-] with a dash. -/
def generateId (eq : PHIVOLCSEarthquake) : String :=
  String.mk
    ((eq.dateTime ++ "-" ++ eq.latitude ++ "-" ++ eq.longitude ++ "-" ++ eq.magnitude).data.map
      sanitizeChar)

/-- Collapse every maximal run of whitespace into a single dash, as the JS
`replace(/\s+/g, "-")` does. -/
def squashWhitespace (s : String) : String :=
  String.mk
    (List.foldr
      (fun c acc =>
        if c.isWhitespace then
          (true, if acc.1 then acc.2 else '-' :: acc.2)
        else (false, c :: acc.2))
      (false, []) s.data).2

/-- The id of a PAGASA typhoon record in `fetchPAGASATyphoonData`:
`pagasa-<lowercased name>-<Date.now()>`. -/
def pagasaTyphoonId (name : String) (now : ℕ) : String :=
  "pagasa-" ++ toLowerString name ++ "-" ++ toString now

/-- The id of a PAGASA flood record in `fetchPAGASAFloodData`:
`pagasa-<lowercased, dashed location>-<Date.now()>-<foundCount>`. -/
def pagasaFloodId (locationName : String) (now : ℕ) (foundCount : ℕ) : String :=
  "pagasa-" ++ squashWhitespace (toLowerString locationName) ++ "-" ++
    toString now ++ "-" ++ toString foundCount

/-- The id of an Open-Meteo flood record in `fetchOpenMeteoFloodData`:
`openmeteo-<lowercased, dashed basin name>` (no timestamp). -/
def openMeteoFloodId (basinName : String) : String :=
  "openmeteo-" ++ squashWhitespace (toLowerString basinName)

end Ids

/-- Counterexample to C5 as stated: the PAGASA typhoon and flood record ids
embed `Date.now()`, so two fetch runs at different times observing the same
physical storm (same name) or flood (same location) produce different id
strings. -/
theorem pagasa_ids_not_stable_cex :
    Ids.pagasaTyphoonId "Pepito" 1000 ≠ Ids.pagasaTyphoonId "Pepito" 2000 ∧
    Ids.pagasaFloodId "manila" 1000 1 ≠ Ids.pagasaFloodId "manila" 2000 1 := by
  constructor <;> decide

/-- C5 amended: the PHIVOLCS earthquake id and the Open-Meteo flood id are
deterministic functions of the event's stable attributes, but the PAGASA storm
and flood ids embed the fetch timestamp, so fetch runs at different times
yield different ids for the same physical event (witnessed at times 1000 and
2000). -/
theorem generateId_deterministic (q1 q2 : Ids.PHIVOLCSEarthquake)
    (hdt : q1.dateTime = q2.dateTime) (hlat : q1.latitude = q2.latitude)
    (hlon : q1.longitude = q2.longitude) (hmag : q1.magnitude = q2.magnitude) :
    Ids.generateId q1 = Ids.generateId q2 ∧
    (∀ basinName : String,
      Ids.openMeteoFloodId basinName =
        "openmeteo-" ++ Ids.squashWhitespace (Ids.toLowerString basinName)) ∧
    Ids.pagasaTyphoonId "Pepito" 1000 ≠ Ids.pagasaTyphoonId "Pepito" 2000 := by
  refine ⟨?_, fun _ => rfl, by decide⟩
  simp only [Ids.generateId, hdt, hlat, hlon, hmag]

/-- Witness for the amended C5 on two scrapes of the same physical event that
differ only in volatile fields. -/
theorem generateId_deterministic_witness :
    Ids.generateId
        ⟨"08 November 2025 - 03:38 PM", some "a", "14.30", "121.00", "5 km", "5.2", "Lucena"⟩ =
      Ids.generateId
        ⟨"08 November 2025 - 03:38 PM", none, "14.30", "121.00", "6 km", "5.2", "Quezon"⟩ ∧
    (∀ basinName : String,
      Ids.openMeteoFloodId basinName =
        "openmeteo-" ++ Ids.squashWhitespace (Ids.toLowerString basinName)) ∧
    Ids.pagasaTyphoonId "Pepito" 1000 ≠ Ids.pagasaTyphoonId "Pepito" 2000 :=
  generateId_deterministic
    ⟨"08 November 2025 - 03:38 PM", some "a", "14.30", "121.00", "5 km", "5.2", "Lucena"⟩
    ⟨"08 November 2025 - 03:38 PM", none, "14.30", "121.00", "6 km", "5.2", "Quezon"⟩
    rfl rfl rfl rfl

namespace Convex

/-- Earthquake coordinates, as in the `earthquakes` table schema. -/
structure Coordinates where
  longitude : ℝ
  latitude : ℝ
  depth : ℝ

/-- The argument record shared by `saveTestEarthquake` and
`saveRealEarthquake` (every `earthquakes` column except `isTest` and
`createdAt`). -/
structure EqArgs where
  id : String
  magnitude : ℝ
  place : String
  time : ℝ
  updated : ℝ
  url : String
  detail : String
  status : String
  tsunami : ℝ
  sig : ℝ
  net : String
  code : String
  ids : String
  sources : String
  types : String
  nst : Option ℝ
  dmin : Option ℝ
  rms : ℝ
  gap : Option ℝ
  magType : String
  type : String
  title : String
  coordinates : Coordinates

/-- A row of the `earthquakes` table; `sysId` models the Convex document
`_id`. -/
structure Earthquake extends EqArgs where
  isTest : Bool
  createdAt : ℝ
  sysId : ℕ

/-- A user location, as in the `users` table schema. -/
structure UserLocation where
  latitude : ℝ
  longitude : ℝ

/-- A row of the `users` table. -/
structure User where
  clerkId : String
  email : String
  name : Option String
  image : Option String
  location : Option UserLocation
  createdAt : ℝ
  updatedAt : ℝ

/-- A geofence, as stored in `alertSettings.alertLocation`. -/
structure AlertLocation where
  latitude : ℝ
  longitude : ℝ
  radiusKm : ℝ

/-- A row of the `alertSettings` table. -/
structure AlertSetting where
  clerkId : String
  enabled : Bool
  minMagnitude : ℝ
  alertLocation : Option AlertLocation
  createdAt : ℝ
  updatedAt : ℝ

/-- A row of the `notifications` table. -/
structure Notification where
  clerkId : String
  type : String
  title : String
  message : String
  earthquakeId : Option String
  read : Bool
  createdAt : ℝ

/-- The Convex database: the four tables used by the alert pipeline. -/
structure DB where
  earthquakes : List Earthquake
  users : List User
  alertSettings : List AlertSetting
  notifications : List Notification

/-- The arguments of the scheduled `checkAndCreateNotification` mutation. -/
structure CheckArgs where
  earthquakeId : String
  magnitude : ℝ
  place : String
  coordinates : Coordinates

/-- The notification-table filter used by `checkAndCreateNotification`:
`type == "earthquake" && earthquakeId == args.earthquakeId` on the
`by_clerkId` index. -/
def notifMatches (eqId clerkId : String) (n : Notification) : Bool :=
  n.clerkId == clerkId && n.type == "earthquake" && n.earthquakeId == some eqId

/-- The two `continue` conditions of the per-user loop in
`checkAndCreateNotification`: skip when the user has an enabled setting and
the event fails the magnitude threshold or the geofence check. -/
noncomputable def skipCheck (enabledSettings : List AlertSetting) (args : CheckArgs)
    (clerkId : String) : Bool :=
  match List.find? (fun s => s.clerkId == clerkId) enabledSettings with
  | some st =>
    if args.magnitude < st.minMagnitude then true
    else
      match st.alertLocation with
      | some loc =>
        decide (Geo.calculateDistance args.coordinates.latitude args.coordinates.longitude
          loc.latitude loc.longitude > loc.radiusKm)
      | none => false
  | none => false

/-- One iteration of the `for (const clerkId of usersToNotify)` loop of
`checkAndCreateNotification`: apply the filters, dedup against the existing
notifications, and insert the notification row.  `toFixed1` and `numStr`
model the JavaScript number formatting used in the title and message. -/
noncomputable def processUser (toFixed1 numStr : ℝ → String) (now : ℝ)
    (enabledSettings : List AlertSetting) (args : CheckArgs) (db : DB)
    (clerkId : String) : DB :=
  let setting := List.find? (fun s => s.clerkId == clerkId) enabledSettings
  if skipCheck enabledSettings args clerkId then db
  else
    match List.find? (notifMatches args.earthquakeId clerkId) db.notifications with
    | some _ => db
    | none =>
      let title := "Earthquake Alert: M" ++ toFixed1 args.magnitude
      let locationText :=
        match setting with
        | some st =>
          match st.alertLocation with
          | some loc => "within " ++ numStr loc.radiusKm ++ "km of your alert location"
          | none => "matching your criteria"
        | none => "detected"
      let message := "A magnitude " ++ toFixed1 args.magnitude ++ " earthquake occurred " ++
        locationText ++ ": " ++ args.place
      { db with notifications := db.notifications ++
          [{ clerkId := clerkId, type := "earthquake", title := title, message := message,
             earthquakeId := some args.earthquakeId, read := false, createdAt := now }] }

/-- The `checkAndCreateNotification` internal mutation: pick the users to
notify (all users when nobody has enabled settings, otherwise the users with
enabled settings) and run the per-user loop. -/
noncomputable def checkAndCreateNotification (toFixed1 numStr : ℝ → String) (db : DB)
    (now : ℝ) (args : CheckArgs) : DB :=
  let enabledSettings := List.filter (fun s => s.enabled) db.alertSettings
  let usersToNotify : List String :=
    if enabledSettings.length = 0 then db.users.map (fun u => u.clerkId)
    else enabledSettings.map (fun s => s.clerkId)
  usersToNotify.foldl (processUser toFixed1 numStr now enabledSettings args) db

/-- The argument record passed by the save mutations to the scheduled
`checkAndCreateNotification` run. -/
def checkArgsOf (args : EqArgs) : CheckArgs :=
  { earthquakeId := args.id, magnitude := args.magnitude, place := args.place,
    coordinates := args.coordinates }

/-- `saveTestEarthquake`: dedup against existing test earthquakes by event id;
patch in place on a hit (no notification check), otherwise insert with
`isTest := true` and schedule `checkAndCreateNotification`. -/
def saveTestEarthquake (db : DB) (now : ℝ) (newSysId : ℕ) (args : EqArgs) :
    DB × Option CheckArgs :=
  match List.find? (fun e => e.id == args.id)
      (List.filter (fun e => e.isTest) db.earthquakes) with
  | some existing =>
    ({ db with earthquakes := db.earthquakes.map (fun e =>
        if e.sysId == existing.sysId then
          { toEqArgs := { args with updated := now }, isTest := true,
            createdAt := existing.createdAt, sysId := e.sysId }
        else e) }, none)
  | none =>
    ({ db with earthquakes := db.earthquakes ++
        [{ toEqArgs := args, isTest := true, createdAt := now, sysId := newSysId }] },
     some (checkArgsOf args))

/-- `saveRealEarthquake`: like `saveTestEarthquake` but dedups against all
earthquakes and stores `isTest := false`. -/
def saveRealEarthquake (db : DB) (now : ℝ) (newSysId : ℕ) (args : EqArgs) :
    DB × Option CheckArgs :=
  match List.find? (fun e => e.id == args.id) db.earthquakes with
  | some existing =>
    ({ db with earthquakes := db.earthquakes.map (fun e =>
        if e.sysId == existing.sysId then
          { toEqArgs := { args with updated := now }, isTest := false,
            createdAt := existing.createdAt, sysId := e.sysId }
        else e) }, none)
  | none =>
    ({ db with earthquakes := db.earthquakes ++
        [{ toEqArgs := args, isTest := false, createdAt := now, sysId := newSysId }] },
     some (checkArgsOf args))

/-- `clearAllTestEarthquakes`: collect the earthquakes with `isTest = true`,
delete each by document id, and return the count. -/
def clearAllTestEarthquakes (db : DB) : DB × ℕ :=
  let testEarthquakes := List.filter (fun e => e.isTest) db.earthquakes
  let remaining := testEarthquakes.foldl
    (fun l e => List.filter (fun x => x.sysId != e.sysId) l) db.earthquakes
  ({ db with earthquakes := remaining }, testEarthquakes.length)

/-- One pipeline step: either a direct `checkAndCreateNotification` run, or a
save mutation together with the `checkAndCreateNotification` run it schedules
(none is scheduled when the save patched an existing row). -/
inductive Op where
  | check (now : ℝ) (args : CheckArgs)
  | saveTest (now : ℝ) (newSysId : ℕ) (args : EqArgs)
  | saveReal (now : ℝ) (newSysId : ℕ) (args : EqArgs)

/-- Execute one pipeline step on the database. -/
noncomputable def runOp (toFixed1 numStr : ℝ → String) (db : DB) (op : Op) : DB :=
  match op with
  | Op.check now args => checkAndCreateNotification toFixed1 numStr db now args
  | Op.saveTest now newSysId args =>
    match saveTestEarthquake db now newSysId args with
    | (db2, some a) => checkAndCreateNotification toFixed1 numStr db2 now a
    | (db2, none) => db2
  | Op.saveReal now newSysId args =>
    match saveRealEarthquake db now newSysId args with
    | (db2, some a) => checkAndCreateNotification toFixed1 numStr db2 now a
    | (db2, none) => db2

/-- Number of notification rows of type "earthquake" for a given
(clerkId, earthquakeId) pair. -/
def notifKeyCount (db : DB) (clerkId eqId : String) : ℕ :=
  (List.filter (notifMatches eqId clerkId) db.notifications).length

/-- The dedup invariant of C1: at most one notification row per
(clerkId, earthquakeId) pair. -/
def DedupInvariant (db : DB) : Prop :=
  ∀ clerkId eqId, notifKeyCount db clerkId eqId ≤ 1

/-- Some notification row of type "earthquake" exists for the pair. -/
def notifExists (db : DB) (clerkId eqId : String) : Prop :=
  0 < notifKeyCount db clerkId eqId

/-- The pass condition of C2: the per-user loop notifies the user exactly when
either the user has no enabled setting, or the event clears the magnitude
threshold and the geofence (when configured). -/
def Passes (enabledSettings : List AlertSetting) (args : CheckArgs) (clerkId : String) :
    Prop :=
  match List.find? (fun s => s.clerkId == clerkId) enabledSettings with
  | some st =>
    st.minMagnitude ≤ args.magnitude ∧
    ∀ loc, st.alertLocation = some loc →
      Geo.calculateDistance args.coordinates.latitude args.coordinates.longitude
        loc.latitude loc.longitude ≤ loc.radiusKm
  | none => True

end Convex

namespace Convex

lemma skipCheck_false_iff (es : List AlertSetting) (args : CheckArgs) (u : String) :
    skipCheck es args u = false ↔ Passes es args u := by
  cases hf : List.find? (fun s => s.clerkId == u) es with
  | none => simp [skipCheck, Passes, hf]
  | some st =>
    simp only [skipCheck, Passes, hf]
    by_cases hm : args.magnitude < st.minMagnitude
    · rw [if_pos hm]
      constructor
      · intro h; cases h
      · rintro ⟨h1, _⟩; exact absurd h1 (not_le.mpr hm)
    · rw [if_neg hm]
      cases hl : st.alertLocation with
      | none => simp [not_lt.mp hm]
      | some loc => simp [decide_eq_false_iff_not, not_lt, not_lt.mp hm]

lemma processUser_eq (f g : ℝ → String) (now : ℝ) (es : List AlertSetting)
    (args : CheckArgs) (db : DB) (u : String) :
    processUser f g now es args db u = db ∨
    (skipCheck es args u = false ∧
      List.find? (notifMatches args.earthquakeId u) db.notifications = none ∧
      ∃ n : Notification,
        processUser f g now es args db u = { db with notifications := db.notifications ++ [n] } ∧
        n.clerkId = u ∧ n.type = "earthquake" ∧ n.earthquakeId = some args.earthquakeId) := by
  simp only [processUser]
  by_cases h : skipCheck es args u = true
  · rw [if_pos h]; exact Or.inl rfl
  · rw [if_neg h]
    have h' : skipCheck es args u = false := by
      revert h; cases skipCheck es args u <;> simp
    cases hfind : List.find? (notifMatches args.earthquakeId u) db.notifications with
    | some n => exact Or.inl rfl
    | none => exact Or.inr ⟨h', rfl, _, rfl, rfl, rfl, rfl⟩

lemma notifMatches_of_fields (n : Notification) (u : String) (eqId : String)
    (hc : n.clerkId = u) (ht : n.type = "earthquake")
    (he : n.earthquakeId = some eqId) (c e : String) :
    notifMatches e c n = true ↔ (u = c ∧ eqId = e) := by
  simp [notifMatches, hc, ht, he]

lemma count_eq_zero_of_find?_none (db : DB) (c e : String)
    (h : List.find? (notifMatches e c) db.notifications = none) :
    notifKeyCount db c e = 0 := by
  unfold notifKeyCount
  rw [List.length_eq_zero, List.filter_eq_nil_iff]
  exact fun x hx => by simpa using List.find?_eq_none.mp h x hx

lemma count_pos_of_find?_some (db : DB) (c e : String) (n : Notification)
    (h : List.find? (notifMatches e c) db.notifications = some n) :
    0 < notifKeyCount db c e := by
  unfold notifKeyCount
  have hmem : n ∈ List.filter (notifMatches e c) db.notifications :=
    List.mem_filter.mpr ⟨List.mem_of_find?_eq_some h, List.find?_some h⟩
  exact List.length_pos.mpr (List.ne_nil_of_mem hmem)

lemma notifKeyCount_append_one (db : DB) (n : Notification) (c e : String) :
    notifKeyCount { db with notifications := db.notifications ++ [n] } c e =
      notifKeyCount db c e + (if notifMatches e c n then 1 else 0) := by
  unfold notifKeyCount
  rw [List.filter_append, List.length_append]
  congr 1
  by_cases h : notifMatches e c n = true <;> simp [List.filter_cons, h]

lemma processUser_dedup (f g : ℝ → String) (now : ℝ) (es : List AlertSetting)
    (args : CheckArgs) (db : DB) (u : String) (h : DedupInvariant db) :
    DedupInvariant (processUser f g now es args db u) := by
  rcases processUser_eq f g now es args db u with heq | ⟨_, hnone, n, heq, hc, ht, he⟩
  · rw [heq]; exact h
  · rw [heq]
    intro c e
    rw [notifKeyCount_append_one]
    by_cases hmatch : notifMatches e c n = true
    · obtain ⟨h1, h2⟩ := (notifMatches_of_fields n u args.earthquakeId hc ht he c e).mp hmatch
      subst h1; subst h2
      rw [count_eq_zero_of_find?_none db _ _ hnone]
      simp [hmatch]
    · have : (if notifMatches e c n then 1 else 0) = 0 := by simp [hmatch]
      rw [this]
      simpa using h c e

lemma foldl_processUser_dedup (f g : ℝ → String) (now : ℝ) (es : List AlertSetting)
    (args : CheckArgs) :
    ∀ (users : List String) (db : DB), DedupInvariant db →
      DedupInvariant (users.foldl (processUser f g now es args) db) := by
  intro users
  induction users with
  | nil => intro db h; exact h
  | cons u us ih =>
    intro db h
    rw [List.foldl_cons]
    exact ih _ (processUser_dedup f g now es args db u h)

lemma checkAndCreateNotification_dedup (f g : ℝ → String) (db : DB) (now : ℝ)
    (args : CheckArgs) (h : DedupInvariant db) :
    DedupInvariant (checkAndCreateNotification f g db now args) := by
  unfold checkAndCreateNotification
  exact foldl_processUser_dedup f g now _ args _ db h

lemma saveTestEarthquake_notifications (db : DB) (now : ℝ) (newSysId : ℕ)
    (args : EqArgs) :
    (saveTestEarthquake db now newSysId args).1.notifications = db.notifications := by
  unfold saveTestEarthquake
  cases List.find? (fun e => e.id == args.id)
      (List.filter (fun e => e.isTest) db.earthquakes) <;> rfl

lemma saveRealEarthquake_notifications (db : DB) (now : ℝ) (newSysId : ℕ)
    (args : EqArgs) :
    (saveRealEarthquake db now newSysId args).1.notifications = db.notifications := by
  unfold saveRealEarthquake
  cases List.find? (fun e => e.id == args.id) db.earthquakes <;> rfl

lemma dedup_of_notifications_eq (db1 db2 : DB)
    (h : db1.notifications = db2.notifications) (hd : DedupInvariant db2) :
    DedupInvariant db1 := by
  intro c e
  unfold notifKeyCount
  rw [h]
  exact hd c e

lemma runOp_dedup (f g : ℝ → String) (db : DB) (op : Op) (h : DedupInvariant db) :
    DedupInvariant (runOp f g db op) := by
  cases op with
  | check now args => exact checkAndCreateNotification_dedup f g db now args h
  | saveTest now newSysId args =>
    simp only [runOp]
    cases hsave : saveTestEarthquake db now newSysId args with
    | mk db2 sched =>
      have hnotif : db2.notifications = db.notifications := by
        have := saveTestEarthquake_notifications db now newSysId args
        rw [hsave] at this; exact this
      have hd2 : DedupInvariant db2 := dedup_of_notifications_eq db2 db hnotif h
      cases sched with
      | some a => exact checkAndCreateNotification_dedup f g db2 now a hd2
      | none => exact hd2
  | saveReal now newSysId args =>
    simp only [runOp]
    cases hsave : saveRealEarthquake db now newSysId args with
    | mk db2 sched =>
      have hnotif : db2.notifications = db.notifications := by
        have := saveRealEarthquake_notifications db now newSysId args
        rw [hsave] at this; exact this
      have hd2 : DedupInvariant db2 := dedup_of_notifications_eq db2 db hnotif h
      cases sched with
      | some a => exact checkAndCreateNotification_dedup f g db2 now a hd2
      | none => exact hd2

end Convex

namespace Convex

lemma processUser_notifExists_iff (f g : ℝ → String) (now : ℝ)
    (es : List AlertSetting) (args : CheckArgs) (db : DB) (u c : String) :
    notifExists (processUser f g now es args db u) c args.earthquakeId ↔
      (notifExists db c args.earthquakeId ∨ (u = c ∧ Passes es args u)) := by
  simp only [processUser]
  by_cases hskip : skipCheck es args u = true
  · rw [if_pos hskip]
    have hnp : ¬ Passes es args u := fun hp => by
      rw [← skipCheck_false_iff] at hp
      rw [hskip] at hp
      cases hp
    simp [hnp]
  · have h' : skipCheck es args u = false := by
      revert hskip; cases skipCheck es args u <;> simp
    rw [if_neg hskip]
    have hp : Passes es args u := (skipCheck_false_iff es args u).mp h'
    cases hfind : List.find? (notifMatches args.earthquakeId u) db.notifications with
    | some n =>
      constructor
      · exact Or.inl
      · rintro (h | ⟨rfl, _⟩)
        · exact h
        · exact count_pos_of_find?_some db _ _ n hfind
    | none =>
      simp only [notifExists]
      rw [notifKeyCount_append_one]
      by_cases huc : u = c
      · subst huc
        rw [count_eq_zero_of_find?_none db _ _ hfind]
        simp [notifMatches, hp]
      · simp [notifMatches, huc]

lemma foldl_processUser_notifExists_iff (f g : ℝ → String) (now : ℝ)
    (es : List AlertSetting) (args : CheckArgs) :
    ∀ (users : List String) (db : DB) (c : String),
      notifExists (users.foldl (processUser f g now es args) db) c args.earthquakeId ↔
        (notifExists db c args.earthquakeId ∨ (c ∈ users ∧ Passes es args c)) := by
  intro users
  induction users with
  | nil => intro db c; simp
  | cons u us ih =>
    intro db c
    rw [List.foldl_cons, ih, processUser_notifExists_iff]
    constructor
    · rintro ((h | ⟨rfl, hp⟩) | ⟨hm, hp⟩)
      · exact Or.inl h
      · exact Or.inr ⟨List.mem_cons_self _ _, hp⟩
      · exact Or.inr ⟨List.mem_cons_of_mem _ hm, hp⟩
    · rintro (h | ⟨hm, hp⟩)
      · exact Or.inl (Or.inl h)
      · rcases List.mem_cons.mp hm with rfl | hm'
        · exact Or.inl (Or.inr ⟨rfl, hp⟩)
        · exact Or.inr ⟨hm', hp⟩

lemma foldl_delete_eq_filter :
    ∀ (ts l : List Earthquake),
      List.foldl (fun acc e => List.filter (fun x => x.sysId != e.sysId) acc) l ts =
        List.filter (fun x => decide (x.sysId ∉ ts.map (fun e => e.sysId))) l := by
  intro ts
  induction ts with
  | nil => intro l; simp
  | cons t ts ih =>
    intro l
    rw [List.foldl_cons, ih, List.filter_filter]
    apply List.filter_congr
    intro x hx
    by_cases h1 : x.sysId = t.sysId <;>
      by_cases h2 : x.sysId ∈ List.map (fun e => e.sysId) ts <;>
        simp [List.mem_cons, h1, h2]

/-- Sample coordinates for witnesses. -/
def sampleCoordinates : Coordinates := ⟨121.0, 14.0, 10.0⟩

/-- Sample scheduled-check arguments for witnesses. -/
def sampleCheckArgs : CheckArgs := ⟨"eq-1", 7.0, "10 km NE of Lucena", sampleCoordinates⟩

/-- Sample user for witnesses. -/
def sampleUser : User := ⟨"user-1", "user@example.com", none, none, none, 0, 0⟩

/-- Sample enabled alert setting (threshold 5.0, no geofence) for witnesses. -/
def sampleSetting : AlertSetting := ⟨"user-1", true, 5.0, none, 0, 0⟩

/-- Sample save-mutation arguments for witnesses. -/
def sampleEqArgs : EqArgs :=
  ⟨"eq-1", 7.0, "10 km NE of Lucena", 0, 0, "u", "d", "reviewed", 0, 700, "phivolcs",
    "c", "i", "phivolcs", "earthquake", none, none, 0, none, "ml", "earthquake",
    "M 7.0", sampleCoordinates⟩

/-- Sample earthquake row for witnesses. -/
def sampleQuake (b : Bool) (i : ℕ) : Earthquake :=
  { toEqArgs := sampleEqArgs, isTest := b, createdAt := 0, sysId := i }

end Convex

/-- C1: for every (clerkId, earthquakeId) pair, after any number of
`checkAndCreateNotification` runs and of `saveTestEarthquake` /
`saveRealEarthquake` mutations (with the checks they schedule), at most one
notification row of type "earthquake" references that pair. -/
theorem pipeline_dedup_invariant (f g : ℝ → String) (db : Convex.DB)
    (ops : List Convex.Op) (h : Convex.DedupInvariant db) :
    Convex.DedupInvariant (ops.foldl (Convex.runOp f g) db) := by
  induction ops generalizing db with
  | nil => exact h
  | cons op ops ih => exact ih _ (Convex.runOp_dedup f g db op h)

/-- Witness for C1: a save of a fresh test earthquake followed by a direct
re-check of the same event, starting from an empty notification store. -/
theorem pipeline_dedup_invariant_witness :
    Convex.DedupInvariant (List.foldl
      (Convex.runOp (fun _ => "7.0") (fun _ => "50"))
      (Convex.DB.mk [] [Convex.sampleUser] [Convex.sampleSetting] [])
      [Convex.Op.saveTest 0 1 Convex.sampleEqArgs,
       Convex.Op.check 1 Convex.sampleCheckArgs]) :=
  pipeline_dedup_invariant (fun _ => "7.0") (fun _ => "50")
    (Convex.DB.mk [] [Convex.sampleUser] [Convex.sampleSetting] [])
    [Convex.Op.saveTest 0 1 Convex.sampleEqArgs, Convex.Op.check 1 Convex.sampleCheckArgs]
    (by intro c e; simp [Convex.notifKeyCount])

/-- C2: for a subscriber with a stored enabled alert setting and no existing
notification for the event, `checkAndCreateNotification` creates a
notification for that subscriber iff the magnitude is at least the
subscriber's threshold and, when a geofence is configured, the haversine
distance from the event to the geofence center is at most its radius. -/
theorem checkAndCreateNotification_filter_iff (f g : ℝ → String) (db : Convex.DB)
    (now : ℝ) (args : Convex.CheckArgs) (c : String) (st : Convex.AlertSetting)
    (hfind : List.find? (fun s => s.clerkId == c)
        (List.filter (fun s => s.enabled) db.alertSettings) = some st)
    (hnew : Convex.notifKeyCount db c args.earthquakeId = 0) :
    Convex.notifExists (Convex.checkAndCreateNotification f g db now args) c
        args.earthquakeId ↔
      (st.minMagnitude ≤ args.magnitude ∧
        ∀ loc, st.alertLocation = some loc →
          Geo.calculateDistance args.coordinates.latitude args.coordinates.longitude
            loc.latitude loc.longitude ≤ loc.radiusKm) := by
  have hmem : st ∈ List.filter (fun s => s.enabled) db.alertSettings :=
    List.mem_of_find?_eq_some hfind
  have hne : (List.filter (fun s => s.enabled) db.alertSettings).length ≠ 0 := by
    intro h0
    rw [List.length_eq_zero] at h0
    rw [h0] at hmem
    cases hmem
  have hclerk : st.clerkId = c := by simpa using List.find?_some hfind
  have hpass : Convex.Passes (List.filter (fun s => s.enabled) db.alertSettings) args c ↔
      (st.minMagnitude ≤ args.magnitude ∧
        ∀ loc, st.alertLocation = some loc →
          Geo.calculateDistance args.coordinates.latitude args.coordinates.longitude
            loc.latitude loc.longitude ≤ loc.radiusKm) := by
    unfold Convex.Passes
    rw [hfind]
  have hnoex : ¬ Convex.notifExists db c args.earthquakeId := by
    simp [Convex.notifExists, hnew]
  simp only [Convex.checkAndCreateNotification]
  rw [if_neg hne, Convex.foldl_processUser_notifExists_iff]
  constructor
  · rintro (h | ⟨_, hp⟩)
    · exact absurd h hnoex
    · exact hpass.mp hp
  · intro h
    exact Or.inr ⟨List.mem_map.mpr ⟨st, hmem, hclerk⟩, hpass.mpr h⟩

/-- Witness for C2: one enabled subscriber with threshold 5.0 and no geofence,
a magnitude 7.0 event, and an empty notification store. -/
theorem checkAndCreateNotification_filter_iff_witness :
    Convex.notifExists
        (Convex.checkAndCreateNotification (fun _ => "7.0") (fun _ => "50")
          (Convex.DB.mk [] [Convex.sampleUser] [Convex.sampleSetting] []) 0
          Convex.sampleCheckArgs)
        "user-1" Convex.sampleCheckArgs.earthquakeId ↔
      (Convex.sampleSetting.minMagnitude ≤ Convex.sampleCheckArgs.magnitude ∧
        ∀ loc, Convex.sampleSetting.alertLocation = some loc →
          Geo.calculateDistance Convex.sampleCheckArgs.coordinates.latitude
            Convex.sampleCheckArgs.coordinates.longitude
            loc.latitude loc.longitude ≤ loc.radiusKm) :=
  checkAndCreateNotification_filter_iff (fun _ => "7.0") (fun _ => "50")
    (Convex.DB.mk [] [Convex.sampleUser] [Convex.sampleSetting] []) 0
    Convex.sampleCheckArgs "user-1" Convex.sampleSetting rfl rfl

/-- C3: when no enabled alert settings exist, `checkAndCreateNotification`
notifies every user in the users table for the incoming event, with no
magnitude or geofence filtering. -/
theorem checkAndCreateNotification_notifies_all (f g : ℝ → String) (db : Convex.DB)
    (now : ℝ) (args : Convex.CheckArgs)
    (hempty : List.filter (fun s => s.enabled) db.alertSettings = []) :
    ∀ u ∈ db.users,
      Convex.notifExists (Convex.checkAndCreateNotification f g db now args)
        u.clerkId args.earthquakeId := by
  intro u hu
  simp only [Convex.checkAndCreateNotification]
  rw [hempty, Convex.foldl_processUser_notifExists_iff]
  refine Or.inr ⟨?_, by simp [Convex.Passes, List.find?_nil]⟩
  show u.clerkId ∈ List.map (fun v => v.clerkId) db.users
  exact List.mem_map.mpr ⟨u, hu, rfl⟩

/-- Witness for C3: two users, an empty alertSettings table, and a concrete
event; both users end up with a notification. -/
theorem checkAndCreateNotification_notifies_all_witness :
    Convex.notifExists
        (Convex.checkAndCreateNotification (fun _ => "7.0") (fun _ => "50")
          (Convex.DB.mk [] [Convex.sampleUser,
            Convex.User.mk "user-2" "b@example.com" none none none 0 0] [] [])
          0 Convex.sampleCheckArgs)
        "user-1" Convex.sampleCheckArgs.earthquakeId ∧
    Convex.notifExists
        (Convex.checkAndCreateNotification (fun _ => "7.0") (fun _ => "50")
          (Convex.DB.mk [] [Convex.sampleUser,
            Convex.User.mk "user-2" "b@example.com" none none none 0 0] [] [])
          0 Convex.sampleCheckArgs)
        "user-2" Convex.sampleCheckArgs.earthquakeId :=
  ⟨checkAndCreateNotification_notifies_all (fun _ => "7.0") (fun _ => "50")
      (Convex.DB.mk [] [Convex.sampleUser,
        Convex.User.mk "user-2" "b@example.com" none none none 0 0] [] [])
      0 Convex.sampleCheckArgs rfl Convex.sampleUser (List.mem_cons_self _ _),
   checkAndCreateNotification_notifies_all (fun _ => "7.0") (fun _ => "50")
      (Convex.DB.mk [] [Convex.sampleUser,
        Convex.User.mk "user-2" "b@example.com" none none none 0 0] [] [])
      0 Convex.sampleCheckArgs rfl
      (Convex.User.mk "user-2" "b@example.com" none none none 0 0)
      (List.mem_cons_of_mem _ (List.mem_cons_self _ _))⟩

/-- C10: `clearAllTestEarthquakes` removes exactly the earthquakes with
`isTest = true` (assuming distinct document ids), returns their count, and
leaves the users, alertSettings and notifications tables unchanged. -/
theorem clearAllTestEarthquakes_spec (db : Convex.DB)
    (hids : (db.earthquakes.map (fun e => e.sysId)).Nodup) :
    (Convex.clearAllTestEarthquakes db).1.earthquakes =
        List.filter (fun e => !e.isTest) db.earthquakes ∧
    (Convex.clearAllTestEarthquakes db).2 =
        (List.filter (fun e => e.isTest) db.earthquakes).length ∧
    (Convex.clearAllTestEarthquakes db).1.users = db.users ∧
    (Convex.clearAllTestEarthquakes db).1.alertSettings = db.alertSettings ∧
    (Convex.clearAllTestEarthquakes db).1.notifications = db.notifications := by
  refine ⟨?_, rfl, rfl, rfl, rfl⟩
  show List.foldl _ db.earthquakes (List.filter (fun e => e.isTest) db.earthquakes) = _
  rw [Convex.foldl_delete_eq_filter]
  apply List.filter_congr
  intro x hx
  by_cases hT : x.isTest
  · have hmem : x.sysId ∈ (List.filter (fun e => e.isTest) db.earthquakes).map
        (fun e => e.sysId) :=
      List.mem_map.mpr ⟨x, List.mem_filter.mpr ⟨hx, by simp [hT]⟩, rfl⟩
    simp [hmem, hT]
  · have hnmem : x.sysId ∉ (List.filter (fun e => e.isTest) db.earthquakes).map
        (fun e => e.sysId) := by
      intro hmem
      obtain ⟨t, htmem, hts⟩ := List.mem_map.mp hmem
      obtain ⟨htl, htT⟩ := List.mem_filter.mp htmem
      have hxt : t = x := List.inj_on_of_nodup_map hids htl hx hts
      rw [hxt] at htT
      simp [hT] at htT
    simp [hnmem, hT]

/-- Witness for C10: a two-row earthquakes table (one test row, one real row)
with distinct document ids. -/
theorem clearAllTestEarthquakes_spec_witness :
    (Convex.clearAllTestEarthquakes
        (Convex.DB.mk [Convex.sampleQuake true 1, Convex.sampleQuake false 2]
          [Convex.sampleUser] [] [])).1.earthquakes =
      List.filter (fun e => !e.isTest)
        [Convex.sampleQuake true 1, Convex.sampleQuake false 2] ∧
    (Convex.clearAllTestEarthquakes
        (Convex.DB.mk [Convex.sampleQuake true 1, Convex.sampleQuake false 2]
          [Convex.sampleUser] [] [])).2 =
      (List.filter (fun e => e.isTest)
        [Convex.sampleQuake true 1, Convex.sampleQuake false 2]).length ∧
    (Convex.clearAllTestEarthquakes
        (Convex.DB.mk [Convex.sampleQuake true 1, Convex.sampleQuake false 2]
          [Convex.sampleUser] [] [])).1.users = [Convex.sampleUser] ∧
    (Convex.clearAllTestEarthquakes
        (Convex.DB.mk [Convex.sampleQuake true 1, Convex.sampleQuake false 2]
          [Convex.sampleUser] [] [])).1.alertSettings = [] ∧
    (Convex.clearAllTestEarthquakes
        (Convex.DB.mk [Convex.sampleQuake true 1, Convex.sampleQuake false 2]
          [Convex.sampleUser] [] [])).1.notifications = [] :=
  clearAllTestEarthquakes_spec
    (Convex.DB.mk [Convex.sampleQuake true 1, Convex.sampleQuake false 2]
      [Convex.sampleUser] [] [])
    (by simp [Convex.sampleQuake])
